import Mathlib

/-!
Formalisation of the URL dispatch helpers of `django/urls/base.py`,
`django/urls/conf.py` and `django/urls/utils.py` (shallow embedding).

Conventions used throughout:
* Python `None` becomes `Option.none`; a Python value that is either
  `None` or a string becomes `Option String`.
* Python exceptions become `Except` errors; a `try`/`except` becomes a
  `match` on the `Except` value.
* Python dictionaries become association lists looked up front-to-back;
  `d[k]` raising `KeyError` becomes an `Option`-valued lookup.
* The collaborators that live in `django/urls/resolvers.py` (the root
  resolver object, `get_ns_resolver`, `URLResolver._reverse_with_prefix`)
  and `django.utils.encoding.iri_to_uri` are outside this excerpt: they
  are passed in as explicit data or functions, or modelled from the
  specification where a marked doc comment says so.
-/

namespace DjangoUrls

/-- Truthiness of an optional string, as Python evaluates `if x:` when `x`
is either `None` or a `str`: `None` and the empty string are falsy. -/
def optTruthy : Option String → Bool
  | none => false
  | some s => s != ""

/-- Association-list lookup, playing the role of a Python dict access
`d[k]`: `none` corresponds to a `KeyError`. -/
def lookupA {α : Type} : List (String × α) → String → Option α
  | [], _ => none
  | (k2, v) :: rest, k => if k2 = k then some v else lookupA rest k

/-- Python `p.endswith('/')`: `p` is nonempty and its last character is a
slash. -/
def endsWithSlash (p : String) : Bool := p.data.getLast? == some '/'

/-- Python `s.split(c)` on a list of characters: always returns at least
one (possibly empty) chunk, and one extra chunk per separator occurrence. -/
def splitChar (c : Char) : List Char → List (List Char)
  | [] => [[]]
  | x :: xs =>
    let r := splitChar c xs
    if x = c then [] :: r
    else
      match r with
      | [] => [[x]]
      | y :: ys => (x :: y) :: ys

/-- Python `s.split(':')` for strings, via `splitChar`. -/
def splitColon (s : String) : List String :=
  (splitChar ':' s.data).map (fun l => String.mk l)

/-- Python `':'.join(parts)`. -/
def joinColon : List String → String
  | [] => ""
  | [x] => x
  | x :: y :: ys => x ++ ":" ++ joinColon (y :: ys)

/-! ## Ambient per-thread state (`base.py` lines 12-19, 130-176)

`base.py` keeps two `threading.local()` objects, `_prefixes` and
`_urlconfs`.  A `threading.local` gives every execution context its own
independent, initially-absent `value` slot; we model the pair of locals as
one state record mapping a context identifier to the optional content of
each slot, and every accessor takes the identifier `c` of the current
context. -/

/-- Execution-context (thread) identifier. -/
abbrev Ctx := Nat

/-- The contents of the module-level `_prefixes` and `_urlconfs`
`threading.local()` objects: one optional value per execution context,
`none` while the slot has never been set (or has been deleted). -/
structure AmbientState where
  prefixes : Ctx → Option String
  urlconfs : Ctx → Option String

/-- Embeds `set_script_prefix(prefix)` (`base.py` 130-137): append a trailing
slash when missing, then store the result in the current context's slot of
`_prefixes`. -/
def setScriptPrefix (st : AmbientState) (c : Ctx) (p : String) : AmbientState :=
  let p2 := if endsWithSlash p then p else p ++ "/"
  { st with prefixes := fun c2 => if c2 = c then some p2 else st.prefixes c2 }

/-- Embeds `get_script_prefix()` (`base.py` 140-146): the current context's slot
of `_prefixes`, defaulting to `"/"` when the slot is unset. -/
def getScriptPrefix (st : AmbientState) (c : Ctx) : String :=
  (st.prefixes c).getD "/"

/-- Embeds `clear_script_prefix()` (`base.py` 149-156): delete the current
context's slot of `_prefixes`; deleting an unset slot is a no-op. -/
def clearScriptPrefix (st : AmbientState) (c : Ctx) : AmbientState :=
  { st with prefixes := fun c2 => if c2 = c then none else st.prefixes c2 }

/-- Embeds `set_urlconf(urlconf_name)` (`base.py` 159-168): a truthy name is
stored in the current context's slot of `_urlconfs`; a falsy name deletes
the slot (reverting to the default). -/
def setUrlconf (st : AmbientState) (c : Ctx) (name : Option String) : AmbientState :=
  if optTruthy name then
    { st with urlconfs := fun c2 => if c2 = c then name else st.urlconfs c2 }
  else
    { st with urlconfs := fun c2 => if c2 = c then none else st.urlconfs c2 }

/-- Embeds `get_urlconf(default=None)` (`base.py` 171-176): the current context's
slot of `_urlconfs` when set, otherwise the supplied default. -/
def getUrlconf (st : AmbientState) (c : Ctx) (dflt : Option String) : Option String :=
  match st.urlconfs c with
  | some v => some v
  | none => dflt

/-! ## `resolve` and `is_valid_path` (`base.py` lines 22-32, 179-189) -/

/-- The fields of a `ResolverMatch` that `base.py` reads: the joined
namespace string (`match.namespace`), the url name, and the captured
positional and keyword arguments. -/
structure ResolverMatch where
  ns : String
  urlName : String
  args : List String
  kwargs : List (String × String)

/-- Outcome of calling `URLResolver.resolve` (the resolver class lives in
`resolvers.py`, outside this excerpt): success with a match, a
`Resolver404`, or any other exception. -/
inductive ResolveOutcome where
  | found (m : ResolverMatch)
  | resolver404
  | otherError

/-- Embeds `resolve(path, urlconf=None)` (`base.py` 22-32): when `urlconf` is
`None` it is defaulted from `get_urlconf()`, then the root resolver for
that urlconf is asked to resolve the path.  `get_resolver(urlconf).resolve`
lives in `resolvers.py`, outside this excerpt, and is passed in as the
function `rootResolve`. -/
def resolve (rootResolve : Option String → String → ResolveOutcome)
    (st : AmbientState) (c : Ctx) (path : String) (urlconf : Option String) :
    ResolveOutcome :=
  let uc : Option String :=
    match urlconf with
    | none => getUrlconf st c none
    | some u => some u
  rootResolve uc path

/-- Embeds `is_valid_path(path, urlconf=None)` (`base.py` 179-189): `True` when
`resolve` succeeds, `False` when it raises `Resolver404`; any other
exception from `resolve` propagates (`.error ()`). -/
def isValidPath (rootResolve : Option String → String → ResolveOutcome)
    (st : AmbientState) (c : Ctx) (path : String) (urlconf : Option String) :
    Except Unit Bool :=
  match resolve rootResolve st c path urlconf with
  | .found _ => .ok true
  | .resolver404 => .ok false
  | .otherError => .error ()

/-! ## `reverse` (`base.py` lines 35-118)

`reverse` reads three pieces of data off the resolver objects that
`resolvers.py` (outside this excerpt) builds: `resolver.app_dict`,
`resolver.namespace_dict` and `resolver.pattern.converters`; and it calls
`get_ns_resolver` and `resolver._reverse_with_prefix`, both also in
`resolvers.py`.  The data becomes the `NsResolver` tree below; the two
calls are modelled from the specification where marked. -/

/-- The slice of a `URLResolver` that `reverse` reads.  In order:
`app_dict` maps an application name to its registered namespace instances
in registration order; `namespace_dict` maps a namespace to the pair of
its url-prefix fragment and its sub-resolver; `resolver.pattern.converters`
is the converter dict of the resolver's own pattern; and the leaf patterns
registered in the resolver, in declaration order, each a name paired with
a rendering function from positional and keyword arguments to the rendered
path fragment (`none` when the pattern does not match the arguments). -/
inductive NsResolver : Type where
  | mk :
      List (String × List String) →
      List (String × (String × NsResolver)) →
      List (String × String) →
      List (String × (List String → List (String × String) → Option String)) →
      NsResolver

/-- Embeds `resolver.app_dict`. -/
def NsResolver.appDict : NsResolver → List (String × List String)
  | .mk a _ _ _ => a

/-- Embeds `resolver.namespace_dict`. -/
def NsResolver.namespaceDict : NsResolver → List (String × (String × NsResolver))
  | .mk _ n _ _ => n

/-- Embeds `resolver.pattern.converters`. -/
def NsResolver.patternConverters : NsResolver → List (String × String)
  | .mk _ _ p _ => p

/-- The named leaf patterns of the resolver, in declaration order. -/
def NsResolver.leafPatterns :
    NsResolver → List (String × (List String → List (String × String) → Option String))
  | .mk _ _ _ l => l

/-- The errors the reverse machinery can raise.
`noReverseMatchNs key resolvedPath` is the `NoReverseMatch` of `base.py`
lines 107-114 (an unregistered namespace key, together with the namespaces
already resolved); `noReverseMatchLeaf view` is the `NoReverseMatch`
raised when no leaf pattern named `view` renders; `mixedArgsKwargs` is the
error raised when both positional and keyword arguments are supplied;
`indexError` is Python's `IndexError` from `app_list[0]` on an empty
instance list. -/
inductive RevErr where
  | noReverseMatchNs (key : String) (resolvedPath : List String)
  | noReverseMatchLeaf (view : String)
  | mixedArgsKwargs
  | indexError
  deriving DecidableEq

/-- Whether the error is a `NoReverseMatch` (the exception class caught by
`translate_url`). -/
def RevErr.isNoReverseMatch : RevErr → Bool
  | .noReverseMatchNs _ _ => true
  | .noReverseMatchLeaf _ => true
  | .mixedArgsKwargs => false
  | .indexError => false

/-- The message of the `NoReverseMatch` raised at `base.py` 107-114.  The
`except KeyError as key` handler formats the exception with `%s`, which
prints the missing key in quotes. -/
def nsKeyErrorMsg (key : String) (resolvedPath : List String) : String :=
  match resolvedPath with
  | [] => "\x27" ++ key ++ "\x27 is not a registered namespace"
  | _ :: _ =>
    "\x27" ++ key ++ "\x27 is not a registered namespace inside \x27" ++
      joinColon resolvedPath ++ "\x27"

/-- The `app_dict` tie-break of one loop iteration of `reverse`
(`base.py` 84-97): when the segment `ns` names an application, prefer a
truthy `current_ns` that is one of its registered instances; otherwise
keep `ns` when it is itself one of the instances; otherwise fall back to
the first registered instance (`app_list[0]`, an `IndexError` on an empty
list).  A segment naming no application is kept unchanged (`except
KeyError: pass`). -/
def selectNs (appDict : List (String × List String)) (ns : String)
    (currentNs : Option String) : Except RevErr String :=
  match lookupA appDict ns with
  | none => .ok ns
  | some appList =>
    match currentNs with
    | some c =>
      if c ≠ "" ∧ c ∈ appList then .ok c
      else if ns ∈ appList then .ok ns
      else
        match appList with
        | [] => .error .indexError
        | a :: _ => .ok a
    | none =>
      if ns ∈ appList then .ok ns
      else
        match appList with
        | [] => .error .indexError
        | a :: _ => .ok a

/-- Embeds `current_path.pop() if current_path else None` (`base.py` 83), value
popped: the front segment (in original order) of a truthy remaining
`current_app` path, `none` when the path is `None` or exhausted. -/
def popCurrentNs : Option (List String) → Option String
  | some (c :: _) => some c
  | _ => none

/-- Embeds `current_path.pop() if current_path else None` (`base.py` 83),
remaining path after the pop (unchanged when no pop happened). -/
def popCurrentRest : Option (List String) → Option (List String)
  | some (_ :: cs) => some cs
  | other => other

/-- The state of `reverse`'s namespace walk (`base.py` 78-106):
the remaining `current_app` segments (in outer-to-inner order, `none` once
abandoned), the resolver being descended into, the namespaces resolved so
far (`resolved_path`), the accumulated url-prefix fragments (`ns_pattern`)
and the accumulated converters (`ns_converters`). -/
structure NsLoopState where
  currentPath : Option (List String)
  resolver : NsResolver
  resolvedPath : List String
  nsPattern : String
  nsConverters : List (String × String)

/-- The namespace-walk loop of `reverse` (`base.py` 81-114).  The Python
loop pops segments from the end of the reversed `path` list, i.e. visits
the namespace segments in their original outer-to-inner order, and pops
`current_path` the same way; the embedding therefore consumes both lists
in original order, from the front.  `ns_converters.update(...)` lets the
sub-resolver's converters shadow the accumulated ones, which for a
front-to-back association list means prepending them.

`nsStepState` is the loop state after one successful iteration that
selected the namespace instance `ns2` and found `(extra, sub)` for it in
`namespace_dict` (`base.py` 99-106): the `current_app` path is kept only
when the selected instance still equals the popped `current_app` segment
(`if ns != current_ns: current_path = None`). -/
def nsStepState (st : NsLoopState) (ns2 extra : String) (sub : NsResolver) :
    NsLoopState :=
  { currentPath :=
      match popCurrentNs st.currentPath with
      | some c => if ns2 = c then popCurrentRest st.currentPath else none
      | none => none
    resolver := sub
    resolvedPath := st.resolvedPath ++ [ns2]
    nsPattern := st.nsPattern ++ extra
    nsConverters := sub.patternConverters ++ st.nsConverters }

/-- The `while path:` loop of `reverse` (`base.py` 81-114): pop the next
segment, run the `app_dict` tie-break, look the selected instance up in
`namespace_dict` (a missing key raising `NoReverseMatch`), and continue
with the stepped state. -/
def reverseNsLoop : List String → NsLoopState → Except RevErr NsLoopState
  | [], st => .ok st
  | ns :: rest, st =>
    match selectNs st.resolver.appDict ns (popCurrentNs st.currentPath) with
    | .error e => .error e
    | .ok ns2 =>
      match lookupA st.resolver.namespaceDict ns2 with
      | none => .error (.noReverseMatchNs ns2 st.resolvedPath)
      | some (extra, sub) =>
        reverseNsLoop rest (nsStepState st ns2 extra sub)

/-- The leaf rendering functions registered under the name `view`, in
declaration order. -/
def candidates (r : NsResolver) (view : String) :
    List (List String → List (String × String) → Option String) :=
  (r.leafPatterns.filter (fun e => e.1 == view)).map (fun e => e.2)

/-- First candidate rendering that succeeds, in declaration order. -/
def firstRender
    (cands : List (List String → List (String × String) → Option String))
    (args : List String) (kwargs : List (String × String)) : Option String :=
  match cands with
  | [] => none
  | f :: fs =>
    match f args kwargs with
    | some s => some s
    | none => firstRender fs args kwargs

/-- Modelled from the spec: `URLResolver._reverse_with_prefix` lives in
`django/urls/resolvers.py`, which is not part of this excerpt.  Following
the specification: exactly one of positional `args` or keyword `kwargs`
may be supplied (mixing both is an error); among the leaf patterns
registered under the requested name, candidates are tried in declaration
order and the first successful rendering wins, with the given script
prefix string prepended; when no candidate renders, the lookup fails with
`NoReverseMatch`. -/
def reverseWithPrefix (r : NsResolver) (pre : String) (view : String)
    (args : List String) (kwargs : List (String × String)) :
    Except RevErr String :=
  if args ≠ [] ∧ kwargs ≠ [] then .error .mixedArgsKwargs
  else
    match firstRender (candidates r view) args kwargs with
    | some s => .ok (pre ++ s)
    | none => .error (.noReverseMatchLeaf view)

/-- Modelled from the spec: `get_ns_resolver` lives in
`django/urls/resolvers.py`, which is not part of this excerpt.  Following
the specification ("concatenate namespace prefixes (outer to inner) +
rendered path"), the resolver built for an accumulated namespace
url-prefix renders every leaf with that accumulated fragment prepended,
and carries the accumulated converters. -/
def getNsResolver (nsPattern : String) (r : NsResolver)
    (convs : List (String × String)) : NsResolver :=
  .mk r.appDict r.namespaceDict convs
    (r.leafPatterns.map (fun e =>
      (e.1, fun a k => (e.2 a k).map (fun s => nsPattern ++ s))))

/-- The initial loop state of `reverse` (`base.py` 70-80): `current_app`
is split on `':'` when truthy, otherwise the current path is `None`. -/
def initNsState (resolver : NsResolver) (currentApp : Option String) :
    NsLoopState :=
  { currentPath :=
      match currentApp with
      | some ca => if ca != "" then some (splitColon ca) else none
      | none => none
    resolver := resolver
    resolvedPath := []
    nsPattern := ""
    nsConverters := [] }

/-- Embeds `reverse(viewname, urlconf=None, args=None, kwargs=None,
current_app=None)` (`base.py` 35-118), for a string `viewname` (the
namespaced-lookup path).  The root resolver for the urlconf
(`get_resolver`, in `resolvers.py` outside this excerpt) is passed in as
`resolver`, and `iri_to_uri` (`django/utils/encoding.py`, outside this
excerpt) as `iriToUri`.  `args = args or []` and `kwargs = kwargs or {}`
are reflected by taking the lists directly.  The Python code splits
`viewname` on `':'` and reverses the list: the head of the reversed list
is the leaf name `view` and the loop pops the remaining segments from the
end, i.e. visits them in original outer-to-inner order, which the
embedding realises by reversing them back. -/
def reverse (st : AmbientState) (c : Ctx) (resolver : NsResolver)
    (iriToUri : String → String) (viewname : String)
    (args : List String) (kwargs : List (String × String))
    (currentApp : Option String) : Except RevErr String :=
  let pre := getScriptPrefix st c
  match (splitColon viewname).reverse with
  | [] => .error .indexError
  | view :: pathR =>
    match reverseNsLoop pathR.reverse (initNsState resolver currentApp) with
    | .error e => .error e
    | .ok st1 =>
      let finalResolver :=
        if st1.nsPattern != "" then
          getNsResolver st1.nsPattern st1.resolver st1.nsConverters
        else st1.resolver
      (reverseWithPrefix finalResolver pre view args kwargs).map iriToUri

/-- Concatenation of url-prefix fragments, in the given (outer to inner)
order. -/
def concatFrags : List String → String
  | [] => ""
  | f :: fs => f ++ concatFrags fs

/-- A successful namespace walk: `NsTraversal segs st st' frags` says that
the loop of `reverse`, started on the segments `segs` in state `st`,
resolves every segment, ends in state `st'`, and picks up exactly the
url-prefix fragments `frags`, one per segment, in traversal (outer to
inner) order. -/
inductive NsTraversal : List String → NsLoopState → NsLoopState → List String → Prop where
  | nil (st : NsLoopState) : NsTraversal [] st st []
  | cons (ns : String) (rest : List String) (st : NsLoopState)
      (ns2 extra : String) (sub : NsResolver) (st' : NsLoopState)
      (frags : List String) :
      selectNs st.resolver.appDict ns (popCurrentNs st.currentPath) = .ok ns2 →
      lookupA st.resolver.namespaceDict ns2 = some (extra, sub) →
      NsTraversal rest (nsStepState st ns2 extra sub) st' frags →
      NsTraversal (ns :: rest) st st' (extra :: frags)

/-! ## `translate_url` (`base.py` lines 192-212) -/

/-- The result of Python's `urllib.parse.urlsplit`. -/
structure SplitUrl where
  scheme : String
  netloc : String
  path : String
  query : String
  fragment : String

/-- The name re-reversed by `translate_url` (`base.py` 204):
`"%s:%s" % (match.namespace, match.url_name)` when the match's namespace
string is truthy, else just the url name. -/
def toBeReversed (m : ResolverMatch) : String :=
  if m.ns != "" then m.ns ++ ":" ++ m.urlName else m.urlName

/-- Embeds `translate_url(url, lang_code)` (`base.py` 192-212).  `urlsplit` and
`urlunsplit` (Python's standard library) are passed in as `urlsplitF` and
`urlunsplitF`; `resolveF` is `resolve` applied to a path (its only
handled failure being `Resolver404`); and `reverseF lang name args
kwargs` is `reverse(name, args=args, kwargs=kwargs)` executed inside
`with override(lang_code)`.  The `except Resolver404: pass` catches
exactly a resolution failure, and the `except NoReverseMatch: pass`
catches exactly a `NoReverseMatch` from `reverse` — any other error from
`reverse` propagates. -/
def translateUrl (urlsplitF : String → SplitUrl)
    (urlunsplitF : SplitUrl → String)
    (resolveF : String → Except Unit ResolverMatch)
    (reverseF : String → String → List String → List (String × String) →
      Except RevErr String)
    (url : String) (langCode : String) : Except RevErr String :=
  let parsed := urlsplitF url
  match resolveF parsed.path with
  | .error _ => .ok url
  | .ok m =>
    match reverseF langCode (toBeReversed m) m.args m.kwargs with
    | .error e => if e.isNoReverseMatch then .ok url else .error e
    | .ok u2 =>
      .ok (urlunsplitF
        { scheme := parsed.scheme, netloc := parsed.netloc, path := u2,
          query := parsed.query, fragment := parsed.fragment })

/-! ## `include` and `_path` (`conf.py`) -/

/-- The `pattern` attribute of an entry of an included pattern list, as
`include` inspects it with `getattr(url_pattern, 'pattern', None)`
(`conf.py` 59-65): absent, a `LocalePrefixPattern`, or any other pattern
object. -/
inductive EntryPattern where
  | absent
  | localePrefix
  | otherPattern
  deriving DecidableEq

/-- One entry of a candidate `urlpatterns` list. -/
structure UrlEntry where
  pattern : EntryPattern
  deriving DecidableEq

/-- What `getattr(urlconf_module, 'urlpatterns', urlconf_module)`
evaluates to: a list (or tuple) of entries, or some non-list object (for
example the module itself). -/
inductive PatternsVal where
  | listOf (entries : List UrlEntry)
  | nonList
  deriving DecidableEq

/-- A urlconf module (or plain pattern list) as `include` reads it: the
optional `urlpatterns` attribute (absent means the object itself is used
as the pattern collection) and the optional `app_name` attribute.  A
plain pattern list passed to `include` is the `ModuleV` whose
`urlpatterns` is that list (`getattr` on a list falls back to the list
itself) and whose `app_name` is absent.  Importing a dotted-path string
(`import_module`, `conf.py` 42-44) is outside this excerpt; the embedding
starts from the already-imported object. -/
structure ModuleV where
  urlpatterns : Option PatternsVal
  appName : Option String
  deriving DecidableEq

/-- The argument of `include`: a 2-tuple `(urlconf_module, app_name)`, a
tuple of any other arity `n` (whose unpacking raises `ValueError`), or a
plain module / pattern list. -/
inductive IncludeArg where
  | tuple2 (urlconfModule : ModuleV) (appName : Option String)
  | tupleN (n : Nat)
  | plain (urlconfModule : ModuleV)

/-- The configuration-time error of `django.core.exceptions`. -/
inductive ConfigErr where
  | improperlyConfigured (msg : String)
  deriving DecidableEq

/-- Embeds `app_name = getattr(urlconf_module, 'app_name', app_name)`
(`conf.py` 48): the module's own `app_name` attribute when present, else
the incoming value. -/
def resolvedAppName (mAppName appName0 : Option String) : Option String :=
  match mAppName with
  | some a => some a
  | none => appName0

/-- The body of `include` once the argument shape is settled (`conf.py`
42-66): read `urlpatterns` and `app_name` off the module (an explicit
`app_name` attribute wins over the tuple-supplied one), reject a truthy
namespace without a truthy app_name, default the namespace to the
app_name, and reject an included pattern list containing a
`LocalePrefixPattern` entry. -/
def includeCore (m : ModuleV) (appName0 : Option String)
    (nmspace : Option String) :
    Except ConfigErr (ModuleV × Option String × Option String) :=
  let patterns : PatternsVal := m.urlpatterns.getD .nonList
  let appName : Option String := resolvedAppName m.appName appName0
  if optTruthy nmspace && ! optTruthy appName then
    .error (.improperlyConfigured
      "Specifying a namespace in include() without providing an app_name is not supported. Set the app_name attribute in the included module, or pass a 2-tuple containing the list of patterns and app_name instead.")
  else
    let nmspace2 := if optTruthy nmspace then nmspace else appName
    match patterns with
    | .listOf entries =>
      if entries.any (fun e => e.pattern == .localePrefix) then
        .error (.improperlyConfigured
          "Using i18n_patterns in an included URLconf is not allowed.")
      else .ok (m, appName, nmspace2)
    | .nonList => .ok (m, appName, nmspace2)

/-- Embeds `include(arg, namespace=None)` (`conf.py` 12-66). -/
def include' (arg : IncludeArg) (nmspace : Option String) :
    Except ConfigErr (ModuleV × Option String × Option String) :=
  match arg with
  | .tupleN n =>
    if optTruthy nmspace then
      .error (.improperlyConfigured
        "Cannot override the namespace for a dynamic module that provides a namespace.")
    else
      .error (.improperlyConfigured
        ("Passing a " ++ toString n ++ "-tuple to include() is not supported. Pass a 2-tuple containing the list of patterns and app_name, and provide the namespace argument to include() instead."))
  | .tuple2 m tupleAppName => includeCore m tupleAppName nmspace
  | .plain m => includeCore m none nmspace

/-- The final `app_name` that `include` computes for an argument shape:
the included object's own `app_name` attribute when present, else the
tuple-supplied one (`conf.py` 48); a malformed tuple never reaches that
line. -/
def effectiveAppName : IncludeArg → Option String
  | .tuple2 m ta => resolvedAppName m.appName ta
  | .tupleN _ => none
  | .plain m => resolvedAppName m.appName none

/-- An opaque view handler (a Python callable). -/
structure Handler where
  id : Nat
  deriving DecidableEq

/-- The `view` argument of `_path`: a list/tuple (the triple produced by
`include`), a callable, or anything else. -/
inductive ViewArg where
  | includeTriple (urlconfModule : ModuleV) (appName : Option String)
      (nmspace : Option String)
  | callableView (h : Handler)
  | otherView

/-- The two pattern classes `_path` can instantiate: `path` partially
applies `Pattern=RoutePattern` and `re_path` applies
`Pattern=RegexPattern` (`conf.py` 88-89). -/
inductive PatternClass where
  | routePattern
  | regexPattern
  deriving DecidableEq

/-- The arguments `_path` passes to the pattern constructor:
`Pattern(route, is_endpoint=False)` for an include and `Pattern(route,
name=name, is_endpoint=True)` for a view (`conf.py` 72, 82). -/
structure PatternSpec where
  cls : PatternClass
  route : String
  name : Option String
  isEndpoint : Bool
  deriving DecidableEq

/-- A node of the URL tree as `_path` builds it: a `URLPattern` leaf or a
`URLResolver` branch (the two classes live in `resolvers.py`; the
embedding records their constructor arguments). -/
inductive UrlNode where
  | urlPattern (pat : PatternSpec) (view : Handler)
      (kwargs : Option (List (String × String))) (name : Option String)
  | urlResolver (pat : PatternSpec) (urlconfModule : ModuleV)
      (kwargs : Option (List (String × String)))
      (appName : Option String) (nmspace : Option String)
  deriving DecidableEq

/-- Whether a node is a `URLPattern` leaf. -/
def UrlNode.isLeaf : UrlNode → Bool
  | .urlPattern _ _ _ _ => true
  | .urlResolver _ _ _ _ _ => false

/-- Whether a node is a `URLResolver` branch. -/
def UrlNode.isBranch : UrlNode → Bool
  | .urlPattern _ _ _ _ => false
  | .urlResolver _ _ _ _ _ => true

/-- Embeds `_path(route, view, kwargs=None, name=None, Pattern=None)` (`conf.py`
69-85): a list/tuple view becomes a `URLResolver` branch over a
non-endpoint pattern, a callable view becomes a `URLPattern` leaf over an
endpoint pattern, anything else raises `TypeError` (carried here as the
error message). -/
def _path (route : String) (view : ViewArg)
    (kwargs : Option (List (String × String))) (name : Option String)
    (cls : PatternClass) : Except String UrlNode :=
  match view with
  | .includeTriple m an nsp =>
    .ok (.urlResolver
      { cls := cls, route := route, name := none, isEndpoint := false }
      m kwargs an nsp)
  | .callableView h =>
    .ok (.urlPattern
      { cls := cls, route := route, name := name, isEndpoint := true }
      h kwargs name)
  | .otherView =>
    .error "view must be a callable or a list/tuple in the case of include()."

/-- Embeds `path(route, view, kwargs=None, name=None)` (`conf.py` 88). -/
def path' (route : String) (view : ViewArg)
    (kwargs : Option (List (String × String))) (name : Option String) :
    Except String UrlNode :=
  _path route view kwargs name .routePattern

/-- Embeds `re_path(route, view, kwargs=None, name=None)` (`conf.py` 89). -/
def rePath (route : String) (view : ViewArg)
    (kwargs : Option (List (String × String))) (name : Option String) :
    Except String UrlNode :=
  _path route view kwargs name .regexPattern

/-! ## Shared fixtures and helper lemmas -/

/-- An ambient state in which no context has set either slot. -/
def stEmpty : AmbientState := ⟨fun _ => none, fun _ => none⟩

theorem endsWithSlash_append (p : String) : endsWithSlash (p ++ "/") = true := by
  have h : (p ++ "/").data = p.data ++ ['/'] := String.data_append p "/"
  simp [endsWithSlash, h, List.getLast?_concat]

/-- A leaf resolver whose pattern `detail` always renders `"A/"`. -/
def detailA : NsResolver := .mk [] [] [] [("detail", fun _ _ => some "A/")]

/-- A leaf resolver whose pattern `detail` always renders `"B/"`. -/
def detailB : NsResolver := .mk [] [] [] [("detail", fun _ _ => some "B/")]

/-- A leaf resolver whose pattern `detail` renders `slug ++ "/"` from the
keyword argument `slug`. -/
def slugResolver : NsResolver :=
  .mk [] [] [] [("detail", fun _ kw => (lookupA kw "slug").map (fun s => s ++ "/"))]

/-- Application `blog` with two namespace instances, `blog` registered
first and `blog2` second. -/
def blogRoot : NsResolver :=
  .mk [("blog", ["blog", "blog2"])]
    [("blog", ("blog/", detailA)), ("blog2", ("blog2/", detailB))] [] []

/-- Application `blog` with the same two instances but `blog2` registered
first: the segment `blog` is itself a registered, non-first instance. -/
def blogRootSwapped : NsResolver :=
  .mk [("blog", ["blog2", "blog"])]
    [("blog", ("blog/", detailA)), ("blog2", ("blog2/", detailB))] [] []

/-- The nested scenario `path("blog/", include([...], namespace="blog"))`
with a slug-captured detail pattern. -/
def blogSlugRoot : NsResolver :=
  .mk [("blog", ["blog"])] [("blog", ("blog/", slugResolver))] [] []

/-! ## Claim theorems -/

/-- C9: after `set_script_prefix(p)` the active script prefix of the
current context equals `p` when `p` already ends with a slash and
`p ++ "/"` otherwise; in particular it always ends with a slash. -/
theorem claimC9_script_trailing_slash (st : AmbientState) (c : Ctx) (p : String) :
    getScriptPrefix (setScriptPrefix st c p) c
      = (if endsWithSlash p then p else p ++ "/")
    ∧ endsWithSlash (getScriptPrefix (setScriptPrefix st c p) c) = true := by
  have hget : getScriptPrefix (setScriptPrefix st c p) c
      = (if endsWithSlash p then p else p ++ "/") := by
    simp [getScriptPrefix, setScriptPrefix]
  refine ⟨hget, ?_⟩
  rw [hget]
  cases hp : endsWithSlash p with
  | true => simp [hp]
  | false => simp [hp, endsWithSlash_append]

/-- C7: with both slots of the current context unset, `get_script_prefix`
returns `"/"` and `get_urlconf(default)` returns the default; the setters
and clearers touch only the current context's slot of their own local;
and clearing (resp. `set_urlconf(None)`) restores the defaults. -/
theorem claimC7_ambient_state (st : AmbientState) (c c2 : Ctx)
    (dflt : Option String) (p : String) (nm : Option String)
    (h1 : st.prefixes c = none) (h2 : st.urlconfs c = none) (h3 : c2 ≠ c) :
    getScriptPrefix st c = "/"
    ∧ getUrlconf st c dflt = dflt
    ∧ (setScriptPrefix st c p).prefixes c2 = st.prefixes c2
    ∧ (setScriptPrefix st c p).urlconfs = st.urlconfs
    ∧ (setUrlconf st c nm).urlconfs c2 = st.urlconfs c2
    ∧ (setUrlconf st c nm).prefixes = st.prefixes
    ∧ (clearScriptPrefix st c).prefixes c2 = st.prefixes c2
    ∧ (clearScriptPrefix st c).urlconfs = st.urlconfs
    ∧ getScriptPrefix (clearScriptPrefix st c) c = "/"
    ∧ getUrlconf (setUrlconf st c none) c dflt = dflt := by
  refine ⟨?_, ?_, ?_, ?_, ?_, ?_, ?_, ?_, ?_, ?_⟩
  · simp [getScriptPrefix, h1]
  · simp [getUrlconf, h2]
  · simp [setScriptPrefix, h3]
  · rfl
  · cases hnm : optTruthy nm <;> simp [setUrlconf, hnm, h3]
  · cases hnm : optTruthy nm <;> simp [setUrlconf, hnm]
  · simp [clearScriptPrefix, h3]
  · rfl
  · simp [getScriptPrefix, clearScriptPrefix]
  · simp [getUrlconf, setUrlconf, optTruthy]

/-- C7 witness: the scope-local behaviour at a concrete state, contexts 0
and 1, default `some "ROOT"`, prefix `"/app"` and urlconf `some "conf"`. -/
theorem claimC7_witness :
    getScriptPrefix stEmpty 0 = "/"
    ∧ getUrlconf stEmpty 0 (some "ROOT") = some "ROOT"
    ∧ (setScriptPrefix stEmpty 0 "/app").prefixes 1 = stEmpty.prefixes 1
    ∧ (setScriptPrefix stEmpty 0 "/app").urlconfs = stEmpty.urlconfs
    ∧ (setUrlconf stEmpty 0 (some "conf")).urlconfs 1 = stEmpty.urlconfs 1
    ∧ (setUrlconf stEmpty 0 (some "conf")).prefixes = stEmpty.prefixes
    ∧ (clearScriptPrefix stEmpty 0).prefixes 1 = stEmpty.prefixes 1
    ∧ (clearScriptPrefix stEmpty 0).urlconfs = stEmpty.urlconfs
    ∧ getScriptPrefix (clearScriptPrefix stEmpty 0) 0 = "/"
    ∧ getUrlconf (setUrlconf stEmpty 0 none) 0 (some "ROOT") = some "ROOT" :=
  claimC7_ambient_state stEmpty 0 1 (some "ROOT") "/app" (some "conf")
    rfl rfl (by decide)

/-- C10: `is_valid_path` returns `True` exactly when `resolve` succeeds
and `False` exactly when `resolve` raises `Resolver404`; a `Resolver404`
is therefore never propagated. -/
theorem claimC10_isValidPath_iff
    (rootResolve : Option String → String → ResolveOutcome)
    (st : AmbientState) (c : Ctx) (path : String) (urlconf : Option String) :
    (isValidPath rootResolve st c path urlconf = .ok true ↔
      ∃ m, resolve rootResolve st c path urlconf = .found m)
    ∧ (isValidPath rootResolve st c path urlconf = .ok false ↔
      resolve rootResolve st c path urlconf = .resolver404) := by
  unfold isValidPath
  cases h : resolve rootResolve st c path urlconf with
  | found m =>
    constructor
    · simp [h]
    · simp [h]
  | resolver404 =>
    constructor
    · simp [h]
    · simp [h]
  | otherError =>
    constructor
    · simp [h]
    · simp [h]

/-- C8: `_path` (hence `path` and `re_path`, which fix the pattern class)
builds exactly one of a leaf or a branch: a list/tuple view becomes a
`URLResolver` branch over a non-endpoint pattern, a callable view becomes
a `URLPattern` leaf over an endpoint pattern, any other view raises
`TypeError`; and every node is a leaf exactly when it is not a branch. -/
theorem claimC8_path_tagged_union (route : String)
    (kwargs : Option (List (String × String))) (name : Option String)
    (cls : PatternClass) :
    (∀ m an nsp, _path route (.includeTriple m an nsp) kwargs name cls
      = .ok (.urlResolver
          { cls := cls, route := route, name := none, isEndpoint := false }
          m kwargs an nsp))
    ∧ (∀ h, _path route (.callableView h) kwargs name cls
      = .ok (.urlPattern
          { cls := cls, route := route, name := name, isEndpoint := true }
          h kwargs name))
    ∧ _path route .otherView kwargs name cls
      = .error "view must be a callable or a list/tuple in the case of include()."
    ∧ (∀ n : UrlNode, n.isBranch = ! n.isLeaf) := by
  refine ⟨fun m an nsp => rfl, fun h => rfl, rfl, ?_⟩
  intro n
  cases n <;> rfl

/-- C2: `translate_url` returns the original URL unchanged whenever
resolving the path fails with `Resolver404` or re-reversing the resolved
name under the target language fails with `NoReverseMatch`, and it never
lets either of those two errors escape. -/
theorem claimC2_translateUrl_fallback (usplit : String → SplitUrl)
    (uunsplit : SplitUrl → String)
    (resolveF : String → Except Unit ResolverMatch)
    (reverseF : String → String → List String → List (String × String) →
      Except RevErr String)
    (url langCode : String) :
    (resolveF (usplit url).path = .error () →
      translateUrl usplit uunsplit resolveF reverseF url langCode = .ok url)
    ∧ (∀ m e, resolveF (usplit url).path = .ok m →
        reverseF langCode (toBeReversed m) m.args m.kwargs = .error e →
        e.isNoReverseMatch = true →
        translateUrl usplit uunsplit resolveF reverseF url langCode = .ok url)
    ∧ (∀ e, translateUrl usplit uunsplit resolveF reverseF url langCode
          = .error e →
        e.isNoReverseMatch = false) := by
  refine ⟨?_, ?_, ?_⟩
  · intro h
    simp [translateUrl, h]
  · intro m e hm hr hnrm
    simp [translateUrl, hm, hr, hnrm]
  · intro e h
    simp only [translateUrl] at h
    cases hres : resolveF (usplit url).path with
    | error u => simp [hres] at h
    | ok m =>
      simp only [hres] at h
      cases hrev : reverseF langCode (toBeReversed m) m.args m.kwargs with
      | ok u2 => simp [hrev] at h
      | error e2 =>
        simp only [hrev] at h
        cases hnrm : e2.isNoReverseMatch with
        | true => simp [hnrm] at h
        | false =>
          simp [hnrm] at h
          subst h
          exact hnrm

/-- C2 witness: `translate_url("/unknown/path/", "fr")` with a resolver
that fails returns the URL unchanged. -/
theorem claimC2_witness :
    translateUrl (fun u => ⟨"", "", u, "", ""⟩) (fun s => s.path)
      (fun _ => .error ()) (fun _ _ _ _ => .error .indexError)
      "/unknown/path/" "fr" = .ok "/unknown/path/" :=
  (claimC2_translateUrl_fallback (fun u => ⟨"", "", u, "", ""⟩)
    (fun s => s.path) (fun _ => .error ()) (fun _ _ _ _ => .error .indexError)
    "/unknown/path/" "fr").1 rfl

/-- C4: supplying both non-empty positional and non-empty keyword
arguments in the same `reverse` call is an error: the rendering stage
rejects the mix outright, and the full `reverse` call never succeeds. -/
theorem claimC4_args_kwargs_exclusive (st : AmbientState) (c : Ctx)
    (resolver : NsResolver) (iriToUri : String → String) (viewname : String)
    (args : List String) (kwargs : List (String × String))
    (capp : Option String) (ha : args ≠ []) (hk : kwargs ≠ []) :
    (∀ r pre view, reverseWithPrefix r pre view args kwargs
      = .error .mixedArgsKwargs)
    ∧ ∃ e, reverse st c resolver iriToUri viewname args kwargs capp
        = .error e := by
  have hrwp : ∀ r pre view, reverseWithPrefix r pre view args kwargs
      = .error .mixedArgsKwargs := by
    intro r pre view
    simp [reverseWithPrefix, ha, hk]
  refine ⟨hrwp, ?_⟩
  unfold reverse
  cases hsplit : (splitColon viewname).reverse with
  | nil => exact ⟨.indexError, rfl⟩
  | cons view pathR =>
    cases hloop : reverseNsLoop pathR.reverse (initNsState resolver capp) with
    | error e => exact ⟨e, by simp [hloop]⟩
    | ok st1 => exact ⟨.mixedArgsKwargs, by simp [hloop, hrwp, Except.map]⟩

/-- C4 witness: mixing `args=["x"]` with `kwargs={"slug": "hello"}` in
the blog scenario is rejected. -/
theorem claimC4_witness :
    (∀ r pre view, reverseWithPrefix r pre view ["x"] [("slug", "hello")]
      = .error .mixedArgsKwargs)
    ∧ ∃ e, reverse stEmpty 0 blogSlugRoot id "blog:detail" ["x"]
        [("slug", "hello")] none = .error e :=
  claimC4_args_kwargs_exclusive stEmpty 0 blogSlugRoot id "blog:detail"
    ["x"] [("slug", "hello")] none (by decide) (by decide)

/-- C6: `include` fails fast with `ImproperlyConfigured` at
tree-construction time: for any argument shape whose final app_name is
falsy while the namespace argument is truthy; for a malformed (non-2)
tuple together with a namespace override; and for an included pattern
list containing a `LocalePrefixPattern` entry (shown for both the plain
and the 2-tuple argument shapes).  All of this happens inside `include`
itself, before any path is ever resolved. -/
theorem claimC6_include_failfast (nmspace : Option String) (n : Nat)
    (m : ModuleV) (ta : Option String) (entries : List UrlEntry)
    (arg : IncludeArg)
    (hns : optTruthy nmspace = true)
    (hban : optTruthy (effectiveAppName arg) = false)
    (hup : m.urlpatterns = some (.listOf entries))
    (hloc : ∃ e ∈ entries, e.pattern = .localePrefix) :
    (∃ msg, include' arg nmspace = .error (.improperlyConfigured msg))
    ∧ include' (.tupleN n) nmspace = .error (.improperlyConfigured
        "Cannot override the namespace for a dynamic module that provides a namespace.")
    ∧ (∃ msg, include' (.plain m) nmspace = .error (.improperlyConfigured msg))
    ∧ (∃ msg, include' (.tuple2 m ta) nmspace
        = .error (.improperlyConfigured msg)) := by
  have hany : entries.any (fun e => e.pattern == .localePrefix) = true := by
    obtain ⟨e, he, hp⟩ := hloc
    exact List.any_eq_true.mpr ⟨e, he, by simp [hp]⟩
  have hcore : ∀ a0, ∃ msg, includeCore m a0 nmspace
      = .error (.improperlyConfigured msg) := by
    intro a0
    cases hcond : optTruthy nmspace && ! optTruthy (resolvedAppName m.appName a0) with
    | true =>
      exact ⟨"Specifying a namespace in include() without providing an app_name is not supported. Set the app_name attribute in the included module, or pass a 2-tuple containing the list of patterns and app_name instead.",
        by simp [includeCore, hcond]⟩
    | false =>
      exact ⟨"Using i18n_patterns in an included URLconf is not allowed.",
        by simp [includeCore, hcond, hup, hany]⟩
  refine ⟨?_, by simp [include', hns], hcore none, hcore ta⟩
  cases arg with
  | tupleN k =>
    exact ⟨"Cannot override the namespace for a dynamic module that provides a namespace.",
      by simp [include', hns]⟩
  | tuple2 m2 ta2 =>
    refine ⟨"Specifying a namespace in include() without providing an app_name is not supported. Set the app_name attribute in the included module, or pass a 2-tuple containing the list of patterns and app_name instead.", ?_⟩
    simp only [effectiveAppName] at hban
    simp [include', includeCore, hns, hban]
  | plain m2 =>
    refine ⟨"Specifying a namespace in include() without providing an app_name is not supported. Set the app_name attribute in the included module, or pass a 2-tuple containing the list of patterns and app_name instead.", ?_⟩
    simp only [effectiveAppName] at hban
    simp [include', includeCore, hns, hban]

/-- C6 witness: a truthy namespace over a module with no app_name, a
3-tuple argument, and a pattern list containing a locale-prefixed entry,
all rejected at construction time. -/
theorem claimC6_witness :
    (∃ msg, include' (.plain ⟨none, none⟩) (some "ns")
      = .error (.improperlyConfigured msg))
    ∧ include' (.tupleN 3) (some "ns") = .error (.improperlyConfigured
        "Cannot override the namespace for a dynamic module that provides a namespace.")
    ∧ (∃ msg, include' (.plain ⟨some (.listOf [⟨.localePrefix⟩]), some "app"⟩)
        (some "ns") = .error (.improperlyConfigured msg))
    ∧ (∃ msg, include' (.tuple2 ⟨some (.listOf [⟨.localePrefix⟩]), some "app"⟩ none)
        (some "ns") = .error (.improperlyConfigured msg)) :=
  claimC6_include_failfast (some "ns") 3
    ⟨some (.listOf [⟨.localePrefix⟩]), some "app"⟩ none
    [⟨.localePrefix⟩] (.plain ⟨none, none⟩)
    (by decide) (by decide) rfl ⟨⟨.localePrefix⟩, by decide, rfl⟩

/-- C1 counterexample: with app `blog` registered under the instance list
`["blog2", "blog"]` (so `blog2` is the first registered instance) and no
`current_app` hint, the claim as stated picks the first registered
instance `blog2`; the code instead keeps the segment `blog`, because the
segment is itself one of the registered instances, and renders via the
`blog` instance. -/
theorem claimC1_counterexample :
    lookupA blogRootSwapped.appDict "blog" = some ["blog2", "blog"]
    ∧ selectNs blogRootSwapped.appDict "blog" none = .ok "blog"
    ∧ ("blog" : String) ≠ "blog2"
    ∧ reverse stEmpty 0 blogRootSwapped id "blog:detail" [] [] none
        = .ok "/blog/A/"
    ∧ ("/blog/A/" : String) ≠ "/blog2/B/" :=
  ⟨rfl, rfl, by decide, rfl, by decide⟩

/-- C1 (amended): for a namespace segment that names an application with
registered instances, the tie-break of `reverse` picks: the truthy
`current_app` segment when it is one of the registered instances;
otherwise the segment itself when it is one of the registered instances;
otherwise the first registered instance — and the loop then descends into
whatever instance was selected. -/
theorem claimC1_amended_tiebreak (st : NsLoopState) (ns : String)
    (rest : List String) (appList : List String)
    (h : lookupA st.resolver.appDict ns = some appList) :
    (∀ cns, popCurrentNs st.currentPath = some cns → cns ≠ "" → cns ∈ appList →
      selectNs st.resolver.appDict ns (popCurrentNs st.currentPath) = .ok cns)
    ∧ ((∀ cns, popCurrentNs st.currentPath = some cns → cns ≠ "" → cns ∉ appList) →
      ns ∈ appList →
      selectNs st.resolver.appDict ns (popCurrentNs st.currentPath) = .ok ns)
    ∧ (∀ a tl, appList = a :: tl →
      (∀ cns, popCurrentNs st.currentPath = some cns → cns ≠ "" → cns ∉ appList) →
      ns ∉ appList →
      selectNs st.resolver.appDict ns (popCurrentNs st.currentPath) = .ok a)
    ∧ (∀ ns2 extra sub,
      selectNs st.resolver.appDict ns (popCurrentNs st.currentPath) = .ok ns2 →
      lookupA st.resolver.namespaceDict ns2 = some (extra, sub) →
      reverseNsLoop (ns :: rest) st = reverseNsLoop rest (nsStepState st ns2 extra sub)) := by
  refine ⟨?_, ?_, ?_, ?_⟩
  · intro cns hc hne hmem
    rw [hc]
    simp [selectNs, h, hne, hmem]
  · intro hno hmem
    cases hcp : popCurrentNs st.currentPath with
    | none => simp [selectNs, h, hmem]
    | some cns =>
      have hnot : ¬(cns ≠ "" ∧ cns ∈ appList) := by
        rintro ⟨h1, h2⟩
        exact hno cns hcp h1 h2
      simp only [selectNs, h]
      rw [if_neg hnot, if_pos hmem]
  · intro a tl htl hno hnmem
    cases hcp : popCurrentNs st.currentPath with
    | none =>
      simp only [selectNs, h]
      rw [if_neg hnmem, htl]
    | some cns =>
      have hnot : ¬(cns ≠ "" ∧ cns ∈ appList) := by
        rintro ⟨h1, h2⟩
        exact hno cns hcp h1 h2
      simp only [selectNs, h]
      rw [if_neg hnot, if_neg hnmem, htl]
  · intro ns2 extra sub hsel hlk
    simp only [reverseNsLoop, hsel, hlk]

/-- C1 witness: with instances `["blog", "blog2"]` and
`current_app = "blog2"`, the `blog2` instance is selected even though
`blog` is registered first. -/
theorem claimC1_witness :
    selectNs blogRoot.appDict "blog"
      (popCurrentNs (initNsState blogRoot (some "blog2")).currentPath)
      = .ok "blog2" :=
  (claimC1_amended_tiebreak (initNsState blogRoot (some "blog2")) "blog" []
    ["blog", "blog2"] rfl).1 "blog2" rfl (by decide) (by decide)

theorem reverseNsLoop_append (xs ys : List String) (st : NsLoopState) :
    reverseNsLoop (xs ++ ys) st =
      match reverseNsLoop xs st with
      | .error e => .error e
      | .ok st1 => reverseNsLoop ys st1 := by
  induction xs generalizing st with
  | nil => rfl
  | cons n rest ih =>
    show reverseNsLoop (n :: (rest ++ ys)) st = _
    simp only [reverseNsLoop]
    cases hsel : selectNs st.resolver.appDict n (popCurrentNs st.currentPath) with
    | error e => simp [hsel]
    | ok ns2 =>
      simp only [hsel]
      cases hlk : lookupA st.resolver.namespaceDict ns2 with
      | none => simp [hlk]
      | some pr =>
        obtain ⟨extra, sub⟩ := pr
        simp only [hlk]
        exact ih (nsStepState st ns2 extra sub)

/-- The nested scenario: an outer namespace `out` wrapping `blogRoot`. -/
def nestedRoot : NsResolver := .mk [] [("out", ("out/", blogRoot))] [] []

/-- The loop state after traversing the outer namespace `out` of
`nestedRoot`. -/
def outLoopState : NsLoopState := ⟨none, blogRoot, ["out"], "out/", []⟩

/-- C3: when the namespace walk of `reverse`, after resolving the leading
segments, selects for the next segment an instance that is not registered
in the current resolver's namespace mapping, `reverse` fails with the
`NoReverseMatch` carrying that key and the already-resolved namespace
path; when the segment names no application the failing key is the
segment itself; and the rendered message names the failing key, plus the
already-resolved namespace path whenever at least one outer segment was
resolved. -/
theorem claimC3_unregistered_namespace (st : AmbientState) (c : Ctx)
    (resolver : NsResolver) (iriToUri : String → String) (viewname : String)
    (args : List String) (kwargs : List (String × String)) (capp : Option String)
    (preSegs postSegs : List String) (s leafName : String) (st1 : NsLoopState)
    (ns2 : String)
    (hsplit : splitColon viewname = (preSegs ++ s :: postSegs) ++ [leafName])
    (hloop : reverseNsLoop preSegs (initNsState resolver capp) = .ok st1)
    (hsel : selectNs st1.resolver.appDict s (popCurrentNs st1.currentPath) = .ok ns2)
    (hmiss : lookupA st1.resolver.namespaceDict ns2 = none) :
    reverse st c resolver iriToUri viewname args kwargs capp
      = .error (.noReverseMatchNs ns2 st1.resolvedPath)
    ∧ (lookupA st1.resolver.appDict s = none → ns2 = s)
    ∧ (∃ a b, nsKeyErrorMsg ns2 st1.resolvedPath = a ++ ns2 ++ b)
    ∧ (st1.resolvedPath ≠ [] →
      ∃ a b, nsKeyErrorMsg ns2 st1.resolvedPath
        = a ++ joinColon st1.resolvedPath ++ b) := by
  refine ⟨?_, ?_, ?_, ?_⟩
  · have hrev2 : (splitColon viewname).reverse
        = leafName :: (preSegs ++ s :: postSegs).reverse := by
      rw [hsplit]; simp
    simp only [reverse, hrev2, List.reverse_reverse, reverseNsLoop_append, hloop]
    simp only [reverseNsLoop, hsel, hmiss]
  · intro hnone
    simp only [selectNs, hnone] at hsel
    cases hsel
    rfl
  · rcases hrp : st1.resolvedPath with _ | ⟨x, xs⟩
    · exact ⟨"\x27", "\x27 is not a registered namespace", rfl⟩
    · refine ⟨"\x27", "\x27 is not a registered namespace inside \x27"
        ++ joinColon (x :: xs) ++ "\x27", ?_⟩
      simp [nsKeyErrorMsg, String.append_assoc]
  · intro hne
    rcases hrp : st1.resolvedPath with _ | ⟨x, xs⟩
    · exact absurd hrp hne
    · refine ⟨"\x27" ++ ns2 ++ "\x27 is not a registered namespace inside \x27",
        "\x27", ?_⟩
      simp [nsKeyErrorMsg, String.append_assoc]

/-- C3 witness: `reverse("out:nope:detail")` on the nested fixture fails
naming the unregistered `nope` inside the already-resolved path `out`. -/
theorem claimC3_witness :
    reverse stEmpty 0 nestedRoot id "out:nope:detail" [] [] none
      = .error (.noReverseMatchNs "nope" outLoopState.resolvedPath)
    ∧ (lookupA outLoopState.resolver.appDict "nope" = none → "nope" = "nope")
    ∧ (∃ a b, nsKeyErrorMsg "nope" outLoopState.resolvedPath
        = a ++ "nope" ++ b)
    ∧ (outLoopState.resolvedPath ≠ [] →
      ∃ a b, nsKeyErrorMsg "nope" outLoopState.resolvedPath
        = a ++ joinColon outLoopState.resolvedPath ++ b) :=
  claimC3_unregistered_namespace stEmpty 0 nestedRoot id "out:nope:detail"
    [] [] none ["out"] [] "nope" "detail" outLoopState "nope"
    rfl rfl rfl rfl

theorem reverseNsLoop_traversal (segs : List String) :
    ∀ (st0 st1 : NsLoopState), reverseNsLoop segs st0 = .ok st1 →
    ∃ frags, NsTraversal segs st0 st1 frags
      ∧ st1.nsPattern = st0.nsPattern ++ concatFrags frags := by
  induction segs with
  | nil =>
    intro st0 st1 h
    cases h
    exact ⟨[], .nil st0, by simp [concatFrags]⟩
  | cons n rest ih =>
    intro st0 st1 h
    simp only [reverseNsLoop] at h
    cases hsel : selectNs st0.resolver.appDict n (popCurrentNs st0.currentPath) with
    | error e => simp [hsel] at h
    | ok ns2 =>
      simp only [hsel] at h
      cases hlk : lookupA st0.resolver.namespaceDict ns2 with
      | none => simp [hlk] at h
      | some pr =>
        obtain ⟨extra, sub⟩ := pr
        simp only [hlk] at h
        obtain ⟨frags, htr, hpat⟩ := ih (nsStepState st0 ns2 extra sub) st1 h
        refine ⟨extra :: frags,
          .cons n rest st0 ns2 extra sub st1 frags hsel hlk htr, ?_⟩
        rw [hpat]
        simp [nsStepState, concatFrags, String.append_assoc]

theorem candidates_getNsResolver (np : String) (r : NsResolver)
    (cv : List (String × String)) (v : String) :
    candidates (getNsResolver np r cv) v
      = (candidates r v).map
          (fun f => fun a k => (f a k).map (fun s2 => np ++ s2)) := by
  cases r with
  | mk ad nd pc lp =>
    simp only [candidates, getNsResolver, NsResolver.leafPatterns]
    induction lp with
    | nil => rfl
    | cons e rest ih =>
      obtain ⟨nm, f⟩ := e
      cases hnm : nm == v with
      | true => simp [List.filter_cons, hnm, ih]
      | false => simp [List.filter_cons, hnm, ih]

theorem firstRender_wrap
    (cands : List (List String → List (String × String) → Option String))
    (np : String) (args : List String) (kwargs : List (String × String)) :
    firstRender
      (cands.map (fun f => fun a k => (f a k).map (fun s2 => np ++ s2)))
      args kwargs
      = (firstRender cands args kwargs).map (fun s2 => np ++ s2) := by
  induction cands with
  | nil => rfl
  | cons f fs ih =>
    simp only [List.map_cons, firstRender]
    cases hf : f args kwargs with
    | none => simp [hf, ih]
    | some s2 => simp [hf]

/-- C5: a successful `reverse` returns the IRI-encoding of: active script
prefix, then the concatenation of the url-prefix fragments of the
traversed namespaces in outer-to-inner order, then the rendered leaf
pattern. -/
theorem claimC5_reverse_concatenation (st : AmbientState) (c : Ctx)
    (resolver : NsResolver) (iriToUri : String → String) (viewname : String)
    (args : List String) (kwargs : List (String × String)) (capp : Option String)
    (segs : List String) (leafName : String) (st1 : NsLoopState) (leafR : String)
    (hsplit : splitColon viewname = segs ++ [leafName])
    (hloop : reverseNsLoop segs (initNsState resolver capp) = .ok st1)
    (hmix : ¬(args ≠ [] ∧ kwargs ≠ []))
    (hrender : firstRender (candidates st1.resolver leafName) args kwargs
      = some leafR) :
    reverse st c resolver iriToUri viewname args kwargs capp
      = .ok (iriToUri (getScriptPrefix st c ++ (st1.nsPattern ++ leafR)))
    ∧ ∃ frags, NsTraversal segs (initNsState resolver capp) st1 frags
        ∧ st1.nsPattern = concatFrags frags := by
  constructor
  · have hrev2 : (splitColon viewname).reverse = leafName :: segs.reverse := by
      rw [hsplit]; simp
    simp only [reverse, hrev2, List.reverse_reverse, hloop]
    by_cases hnp : st1.nsPattern = ""
    · have hb : (st1.nsPattern != "") = false := by simp [hnp]
      rw [hb]
      simp [reverseWithPrefix, hmix, hrender, hnp, Except.map]
    · have hb : (st1.nsPattern != "") = true := by simp [hnp]
      rw [hb]
      simp [reverseWithPrefix, hmix, candidates_getNsResolver,
        firstRender_wrap, hrender, Except.map, String.append_assoc]
  · obtain ⟨frags, htr, hpat⟩ :=
      reverseNsLoop_traversal segs (initNsState resolver capp) st1 hloop
    refine ⟨frags, htr, ?_⟩
    rw [hpat]
    simp [initNsState]

/-- The loop state after traversing the `blog` namespace of
`blogSlugRoot`. -/
def slugLoopState : NsLoopState := ⟨none, slugResolver, ["blog"], "blog/", []⟩

/-- C5 witness: `reverse("blog:detail", kwargs={"slug": "hello"})` on the
nested blog fixture renders `/blog/hello/`: script prefix `/`, namespace
fragment `blog/`, leaf rendering `hello/`. -/
theorem claimC5_witness :
    reverse stEmpty 0 blogSlugRoot id "blog:detail" [] [("slug", "hello")] none
      = .ok (id (getScriptPrefix stEmpty 0 ++ (slugLoopState.nsPattern ++ "hello/")))
    ∧ ∃ frags, NsTraversal ["blog"] (initNsState blogSlugRoot none)
        slugLoopState frags
        ∧ slugLoopState.nsPattern = concatFrags frags :=
  claimC5_reverse_concatenation stEmpty 0 blogSlugRoot id "blog:detail"
    [] [("slug", "hello")] none ["blog"] "detail" slugLoopState "hello/"
    rfl rfl (by decide) rfl

end DjangoUrls
